import Mathlib

/-
Shallow embedding of the wasmtime C++ header-only binding (include/wasmtime.hh)
over the wasm/wasmtime C ABI it wraps.

Modelling conventions:
- An opaque C object pointer (wasm_engine_t*, wasmtime_context_t*, ...) is a
  natural number, its address; 0 stands for the null pointer where a null
  matters.
- A nullable pointer returned by the engine together with its pointee is an
  Option of the pointee's model (some = non-null).
- A C call with out-parameters is modelled as returning the tuple of its
  return value and the final values of the out-parameters.
- The external engine functions the header merely invokes are taken as
  function-typed arguments of the wrapper definitions, so every theorem
  quantifies over the engine's behavior; the few C accessors with an API-fixed
  meaning (reading a message, a stored kind) are modelled as definitions over
  the pointee structures.
- std::abort() and reading an inactive union member are modelled by Option
  (none = the operation does not return normally).
-/

namespace Wasmtime

/-- Byte strings crossing the ABI boundary (wasm binaries, serialized bytes). -/
abbrev Bytes := List UInt8

/-- Raw pointer to an opaque engine object, modelled by its address. -/
abbrev wasm_config_t := Nat

abbrev wasm_engine_t := Nat

abbrev wasmtime_store_t := Nat

abbrev wasmtime_context_t := Nat

abbrev wasmtime_module_t := Nat

abbrev wasmtime_linker_t := Nat

abbrev wasi_config_t := Nat

abbrev wasmtime_interrupt_handle_t := Nat

abbrev wasm_globaltype_t := Nat

abbrev wasm_tabletype_t := Nat

abbrev wasm_memorytype_t := Nat

/-- wasmtime_error_t: engine error object, carrying the message the engine
supplies for it (read with wasmtime_error_message). -/
structure wasmtime_error_t where
  msg : Bytes
deriving DecidableEq

/-- wasmtime_error_message: copies the engine-supplied message bytes out. -/
def wasmtime_error_message (e : wasmtime_error_t) : Bytes := e.msg

/-- Error: wrapper class storing the message copied out of an engine error
(the constructor reads it via wasmtime_error_message and frees the raw
error). -/
structure Error where
  msg : Bytes
deriving DecidableEq

/-- Error::Error(wasmtime_error_t *error): msg = the engine-supplied bytes. -/
def Error.of_raw (error : wasmtime_error_t) : Error :=
  ⟨wasmtime_error_message error⟩

/-- Error::message. -/
def Error.message (e : Error) : Bytes := e.msg

/-- Result: std::variant of the ok value (index 0) and the error. -/
inductive Result (T : Type) (E : Type) where
  | ok (t : T)
  | err (e : E)
deriving DecidableEq

/-- Result::operator bool: data.index() == 0, i.e. the ok alternative. -/
def Result.toBool {T E : Type} : Result T E → Bool
  | .ok _ => true
  | .err _ => false

/-- wasm_limits_t from the C API. -/
structure wasm_limits_t where
  min : Nat
  max : Nat
deriving DecidableEq

/-- wasm_limits_max_default from wasm.h: 0xffffffff, the sentinel for a missing
maximum. -/
def wasm_limits_max_default : Nat := 0xffffffff

/-- Limits: wrapper structure storing a raw wasm_limits_t. -/
structure Limits where
  raw : wasm_limits_t
deriving DecidableEq

/-- Limits(uint32_t min): max is the sentinel wasm_limits_max_default. -/
def Limits.of_min (min : Nat) : Limits :=
  ⟨{ min := min, max := wasm_limits_max_default }⟩

/-- Limits(uint32_t min, uint32_t max). -/
def Limits.of_min_max (min max : Nat) : Limits :=
  ⟨{ min := min, max := max }⟩

/-- Limits::min. -/
def Limits.min (l : Limits) : Nat := l.raw.min

/-- Limits::max: nullopt when raw.max is the sentinel. -/
def Limits.max (l : Limits) : Option Nat :=
  if l.raw.max = wasm_limits_max_default then none else some l.raw.max

/-- ValKind: the wrapper's own enumeration of value kinds. -/
inductive ValKind where
  | KindI32
  | KindI64
  | KindF32
  | KindF64
  | KindV128
  | KindExternRef
  | KindFuncRef
deriving DecidableEq

/-- wasm_valkind_t codes from wasm.h. -/
abbrev wasm_valkind_t := Nat

def WASM_I32 : wasm_valkind_t := 0

def WASM_I64 : wasm_valkind_t := 1

def WASM_F32 : wasm_valkind_t := 2

def WASM_F64 : wasm_valkind_t := 3

def WASM_ANYREF : wasm_valkind_t := 128

def WASM_FUNCREF : wasm_valkind_t := 129

/-- WASMTIME_V128: wasmtime.h's extension to the wasm_valkind_enum codes, a
value distinct from the six wasm.h codes above. -/
def WASMTIME_V128 : wasm_valkind_t := 6

/-- wasm_valtype_t: the C value-type object; it stores the kind it was created
with. -/
structure wasm_valtype_t where
  kind : wasm_valkind_t
deriving DecidableEq

/-- wasm_valtype_new from the C API: allocates a value type of the given
kind. -/
def wasm_valtype_new (kind : wasm_valkind_t) : wasm_valtype_t := ⟨kind⟩

/-- wasm_valtype_kind from the C API: the stored kind. -/
def wasm_valtype_kind (t : wasm_valtype_t) : wasm_valkind_t := t.kind

/-- ValType::kind_to_c: the wrapper's switch from ValKind to the C code
(total; its trailing std::abort is unreachable). -/
def ValType.kind_to_c : ValKind → wasm_valkind_t
  | .KindI32 => WASM_I32
  | .KindI64 => WASM_I64
  | .KindF32 => WASM_F32
  | .KindF64 => WASM_F64
  | .KindExternRef => WASM_ANYREF
  | .KindFuncRef => WASM_FUNCREF
  | .KindV128 => WASMTIME_V128

/-- ValType: owns a wasm_valtype_t (the unique_ptr's pointee is modelled
directly). -/
structure ValType where
  ptr : wasm_valtype_t
deriving DecidableEq

/-- ValType::Ref: a non-owning view of a wasm_valtype_t. -/
structure ValType.Ref where
  ptr : wasm_valtype_t
deriving DecidableEq

/-- ValType(ValKind kind): ValType(wasm_valtype_new(kind_to_c(kind))). -/
def ValType.of_kind (kind : ValKind) : ValType :=
  ⟨wasm_valtype_new (ValType.kind_to_c kind)⟩

/-- ValType::operator-> hands out the Ref over the owned pointer. -/
def ValType.ref (t : ValType) : ValType.Ref := ⟨t.ptr⟩

/-- ValType::Ref::kind: the wrapper's switch back from the C code; the switch
has cases for the six wasm.h codes only, and falls through to std::abort
(modelled none) on any other code, WASMTIME_V128 included. -/
def ValType.Ref.kind (r : ValType.Ref) : Option ValKind :=
  let k := wasm_valtype_kind r.ptr
  if k = WASM_I32 then some .KindI32
  else if k = WASM_I64 then some .KindI64
  else if k = WASM_F32 then some .KindF32
  else if k = WASM_F64 then some .KindF64
  else if k = WASM_ANYREF then some .KindExternRef
  else if k = WASM_FUNCREF then some .KindFuncRef
  else none

/-- wasm_frame_t: one stack frame as produced by the engine. -/
structure wasm_frame_t where
  func_index : Nat
  func_offset : Nat
  module_offset : Nat
deriving DecidableEq

/-- wasm_trap_t: engine trap object, carrying what the engine reports for it:
its message, the optional WASI exit status, and the captured frames. -/
structure wasm_trap_t where
  msg : Bytes
  exit_status : Option Int
  frames : List wasm_frame_t
deriving DecidableEq

/-- wasm_trap_message: copies the engine-supplied message bytes out. -/
def wasm_trap_message (t : wasm_trap_t) : Bytes := t.msg

/-- wasmtime_trap_exit_status(trap, &status): returns whether the trap is an
exit and the final value of the out-parameter (left at the caller's 0 when
the engine reports no exit status). -/
def wasmtime_trap_exit_status (t : wasm_trap_t) : Bool × Int :=
  match t.exit_status with
  | some s => (true, s)
  | none => (false, 0)

/-- wasm_trap_trace(trap, &frames): the frame vector the engine fills in. -/
def wasm_trap_trace (t : wasm_trap_t) : List wasm_frame_t := t.frames

/-- Trap: owns a wasm_trap_t. -/
structure Trap where
  ptr : wasm_trap_t
deriving DecidableEq

/-- Trap::message. -/
def Trap.message (t : Trap) : Bytes := wasm_trap_message t.ptr

/-- Trap::i32_exit: int32_t status = 0; if the engine call returns true,
returns the status it wrote, else nullopt. -/
def Trap.i32_exit (t : Trap) : Option Int :=
  let r := wasmtime_trap_exit_status t.ptr
  if r.1 then some r.2 else none

/-- Trace: owns the wasm_frame_vec_t filled by wasm_trap_trace. -/
structure Trace where
  vec : List wasm_frame_t
deriving DecidableEq

/-- Trace::size. -/
def Trace.size (t : Trace) : Nat := t.vec.length

/-- Iteration over a Trace (begin/end): the i-th FrameRef it exposes. -/
def Trace.get (t : Trace) (i : Nat) : Option wasm_frame_t := t.vec.get? i

/-- Trap::trace: wraps the frames the engine produces for this trap. -/
def Trap.trace (t : Trap) : Trace := ⟨wasm_trap_trace t.ptr⟩

/-- TrapError: std::variant of Trap and Error. -/
inductive TrapError where
  | trap (t : Trap)
  | error (e : Error)
deriving DecidableEq

/-- TrapError::message: get_if of Trap, then of Error (the trailing std::abort
is unreachable over the two alternatives). -/
def TrapError.message : TrapError → Bytes
  | .trap t => Trap.message t
  | .error e => Error.message e

/-- TrapResult from the header. -/
abbrev TrapResult (T : Type) := Result T TrapError

/-- wasmtime_func_t handle from the C API. -/
structure wasmtime_func_t where
  store_id : Nat
  index : Nat
deriving DecidableEq

/-- wasmtime_global_t handle from the C API. -/
structure wasmtime_global_t where
  store_id : Nat
  index : Nat
deriving DecidableEq

/-- wasmtime_table_t handle from the C API. -/
structure wasmtime_table_t where
  store_id : Nat
  index : Nat
deriving DecidableEq

/-- wasmtime_memory_t handle from the C API. -/
structure wasmtime_memory_t where
  store_id : Nat
  index : Nat
deriving DecidableEq

/-- wasmtime_instance_t handle from the C API. -/
structure wasmtime_instance_t where
  store_id : Nat
  index : Nat
deriving DecidableEq

/-- wasmtime_val_t: the C value union. Its contents are only copied across the
boundary by the operations modelled here, so it is kept abstract. -/
structure wasmtime_val_t where
  raw : Nat
deriving DecidableEq

/-- A default-initialized wasmtime_val_t. -/
def wasmtime_val_zero : wasmtime_val_t := ⟨0⟩

/-- Val: wrapper holding a wasmtime_val_t. -/
structure Val where
  val : wasmtime_val_t
deriving DecidableEq

/-- Func: wrapper holding a wasmtime_func_t by value. -/
structure Func where
  func : wasmtime_func_t
deriving DecidableEq

/-- Global: wrapper holding a wasmtime_global_t by value. -/
structure Global where
  global : wasmtime_global_t
deriving DecidableEq

/-- Table: wrapper holding a wasmtime_table_t by value. -/
structure Table where
  table : wasmtime_table_t
deriving DecidableEq

/-- Memory: wrapper holding a wasmtime_memory_t by value. -/
structure Memory where
  memory : wasmtime_memory_t
deriving DecidableEq

/-- Instance: wrapper holding a wasmtime_instance_t by value (the field
`instance` of the source; `inst` because instance is a Lean keyword). -/
structure Instance where
  inst : wasmtime_instance_t
deriving DecidableEq

/-- Module: owns a wasmtime_module_t; ptr is the unique_ptr's raw pointer. -/
structure Module where
  ptr : wasmtime_module_t
deriving DecidableEq

/-- Extern: std::variant over Instance, Module, Func, Global, Memory, Table,
in the source's alternative order. -/
inductive Extern where
  | inst (i : Instance)
  | module (m : Module)
  | func (f : Func)
  | global (g : Global)
  | memory (m : Memory)
  | table (t : Table)
deriving DecidableEq

/-- The index of an Extern value's variant alternative. -/
def Extern.alternative : Extern → Nat
  | .inst _ => 0
  | .module _ => 1
  | .func _ => 2
  | .global _ => 3
  | .memory _ => 4
  | .table _ => 5

/-- wasmtime_extern_kind_t codes from wasmtime.h: FUNC=0, GLOBAL=1, TABLE=2,
MEMORY=3, INSTANCE=4, MODULE=5. -/
inductive wasmtime_extern_kind_t where
  | WASMTIME_EXTERN_FUNC
  | WASMTIME_EXTERN_GLOBAL
  | WASMTIME_EXTERN_TABLE
  | WASMTIME_EXTERN_MEMORY
  | WASMTIME_EXTERN_INSTANCE
  | WASMTIME_EXTERN_MODULE
deriving DecidableEq

/-- The union member of wasmtime_extern_t; as in C, exactly one member is
active at a time. -/
inductive wasmtime_extern_union where
  | func (f : wasmtime_func_t)
  | global (g : wasmtime_global_t)
  | table (t : wasmtime_table_t)
  | memory (m : wasmtime_memory_t)
  | inst (i : wasmtime_instance_t)
  | module (m : wasmtime_module_t)
deriving DecidableEq

/-- wasmtime_extern_t: the C ABI's tagged union. -/
structure wasmtime_extern_t where
  kind : wasmtime_extern_kind_t
  of : wasmtime_extern_union
deriving DecidableEq

/-- Value initialization wasmtime_extern_t() of the C struct: kind code 0
(WASMTIME_EXTERN_FUNC) and a zeroed union (a zeroed func handle). -/
def wasmtime_extern_zero : wasmtime_extern_t :=
  ⟨.WASMTIME_EXTERN_FUNC, .func ⟨0, 0⟩⟩

/-- Whether the tag of a wasmtime_extern_t names its active union member. -/
def kind_matches : wasmtime_extern_kind_t → wasmtime_extern_union → Bool
  | .WASMTIME_EXTERN_FUNC, .func _ => true
  | .WASMTIME_EXTERN_GLOBAL, .global _ => true
  | .WASMTIME_EXTERN_TABLE, .table _ => true
  | .WASMTIME_EXTERN_MEMORY, .memory _ => true
  | .WASMTIME_EXTERN_INSTANCE, .inst _ => true
  | .WASMTIME_EXTERN_MODULE, .module _ => true
  | _, _ => false

/-- Instance::cvt(wasmtime_extern_t&): the switch over e.kind, reading the
union member the case names; reading an inactive member (and the switch's
trailing std::abort) is modelled none. -/
def Instance.cvt (e : wasmtime_extern_t) : Option Extern :=
  match e.kind, e.of with
  | .WASMTIME_EXTERN_FUNC, .func f => some (.func ⟨f⟩)
  | .WASMTIME_EXTERN_GLOBAL, .global g => some (.global ⟨g⟩)
  | .WASMTIME_EXTERN_MEMORY, .memory m => some (.memory ⟨m⟩)
  | .WASMTIME_EXTERN_TABLE, .table t => some (.table ⟨t⟩)
  | .WASMTIME_EXTERN_INSTANCE, .inst i => some (.inst ⟨i⟩)
  | .WASMTIME_EXTERN_MODULE, .module m => some (.module ⟨m⟩)
  | _, _ => none

/-- Instance::cvt(Extern &e, wasmtime_extern_t &raw): assigns raw.kind and the
matching union member of raw (both fields written, so the incoming raw is
fully overwritten); the if-chain covers every alternative, so its trailing
std::abort is unreachable. -/
def Instance.cvt_into (e : Extern) (raw : wasmtime_extern_t) : wasmtime_extern_t :=
  match e with
  | .func f => { raw with kind := .WASMTIME_EXTERN_FUNC, of := .func f.func }
  | .global g => { raw with kind := .WASMTIME_EXTERN_GLOBAL, of := .global g.global }
  | .table t => { raw with kind := .WASMTIME_EXTERN_TABLE, of := .table t.table }
  | .memory m => { raw with kind := .WASMTIME_EXTERN_MEMORY, of := .memory m.memory }
  | .inst i => { raw with kind := .WASMTIME_EXTERN_INSTANCE, of := .inst i.inst }
  | .module m => { raw with kind := .WASMTIME_EXTERN_MODULE, of := .module m.ptr }

/-- Config: owns a wasm_config_t. -/
structure Config where
  ptr : wasm_config_t
deriving DecidableEq

/-- Config::Strategy. -/
inductive Strategy where
  | Auto
  | Cranelift
  | Lightbeam
deriving DecidableEq

/-- Config::ProfilingStrategy. -/
inductive ProfilingStrategy where
  | ProfileNone
  | ProfileJitdump
  | ProfileVtune
deriving DecidableEq

/-- Config::strategy: forwards to wasmtime_config_strategy_set and maps a
non-null error to the error variant. -/
def Config.strategy
    (wasmtime_config_strategy_set : wasm_config_t → Strategy → Option wasmtime_error_t)
    (self : Config) (strategy : Strategy) : Result Unit Error :=
  match wasmtime_config_strategy_set self.ptr strategy with
  | some error => .err (Error.of_raw error)
  | none => .ok ()

/-- Config::profiler: forwards to wasmtime_config_profiler_set. -/
def Config.profiler
    (wasmtime_config_profiler_set : wasm_config_t → ProfilingStrategy → Option wasmtime_error_t)
    (self : Config) (profiler : ProfilingStrategy) : Result Unit Error :=
  match wasmtime_config_profiler_set self.ptr profiler with
  | some error => .err (Error.of_raw error)
  | none => .ok ()

/-- Config::cache_load: forwards the path to wasmtime_config_cache_config_load. -/
def Config.cache_load
    (wasmtime_config_cache_config_load : wasm_config_t → String → Option wasmtime_error_t)
    (self : Config) (path : String) : Result Unit Error :=
  match wasmtime_config_cache_config_load self.ptr path with
  | some error => .err (Error.of_raw error)
  | none => .ok ()

/-- Engine: owns a wasm_engine_t. -/
structure Engine where
  ptr : wasm_engine_t
deriving DecidableEq

/-- wat2wasm: wasmtime_wat2wasm(wat, &ret); a non-null error is the error
variant, else the returned byte vector is copied out and returned. -/
def wat2wasm
    (wasmtime_wat2wasm : String → Option wasmtime_error_t × Bytes)
    (wat : String) : Result Bytes Error :=
  let r := wasmtime_wat2wasm wat
  match r.1 with
  | some error => .err (Error.of_raw error)
  | none => .ok r.2

/-- Module::compile(Engine&, span): wasmtime_module_new(engine, wasm, &ret). -/
def Module.compile
    (wasmtime_module_new : wasm_engine_t → Bytes → Option wasmtime_error_t × wasmtime_module_t)
    (engine : Engine) (wasm : Bytes) : Result Module Error :=
  let r := wasmtime_module_new engine.ptr wasm
  match r.1 with
  | some error => .err (Error.of_raw error)
  | none => .ok ⟨r.2⟩

/-- Module::validate: wasmtime_module_validate(engine, wasm). -/
def Module.validate
    (wasmtime_module_validate : wasm_engine_t → Bytes → Option wasmtime_error_t)
    (engine : Engine) (wasm : Bytes) : Result Unit Error :=
  match wasmtime_module_validate engine.ptr wasm with
  | some error => .err (Error.of_raw error)
  | none => .ok ()

/-- Module::deserialize: wasmtime_module_deserialize(engine, wasm, &ret). -/
def Module.deserialize
    (wasmtime_module_deserialize : wasm_engine_t → Bytes → Option wasmtime_error_t × wasmtime_module_t)
    (engine : Engine) (wasm : Bytes) : Result Module Error :=
  let r := wasmtime_module_deserialize engine.ptr wasm
  match r.1 with
  | some error => .err (Error.of_raw error)
  | none => .ok ⟨r.2⟩

/-- Module::serialize: wasmtime_module_serialize(ptr, &bytes); on success the
byte vector is copied out and returned. -/
def Module.serialize
    (wasmtime_module_serialize : wasmtime_module_t → Option wasmtime_error_t × Bytes)
    (self : Module) : Result Bytes Error :=
  let r := wasmtime_module_serialize self.ptr
  match r.1 with
  | some error => .err (Error.of_raw error)
  | none => .ok r.2

/-- std::unique_ptr over the store handle, with the operations the header uses:
get observes the raw pointer without transfer, release gives ownership up,
destruction frees what is still owned. -/
structure unique_ptr where
  owned : Option wasmtime_store_t
deriving DecidableEq

/-- unique_ptr::get: the raw pointer (0 = nullptr when empty), no transfer. -/
def unique_ptr.get (p : unique_ptr) : wasmtime_store_t := p.owned.getD 0

/-- unique_ptr::release: the raw pointer, ownership given up. -/
def unique_ptr.release (p : unique_ptr) : wasmtime_store_t × unique_ptr :=
  (p.owned.getD 0, ⟨none⟩)

/-- Store: owns a wasmtime_store_t through its unique_ptr. -/
structure Store where
  ptr : unique_ptr
deriving DecidableEq

/-- Store::Context: a non-owning view, just the raw wasmtime_context_t*. -/
structure Store.Context where
  ptr : wasmtime_context_t
deriving DecidableEq

/-- Store::context (through Context(Store*)): wasmtime_store_context(ptr.get());
the second component is the Store (this) after the call — the unique_ptr is
only observed through get, never released. -/
def Store.context
    (wasmtime_store_context : wasmtime_store_t → wasmtime_context_t)
    (self : Store) : Store.Context × Store :=
  (⟨wasmtime_store_context (unique_ptr.get self.ptr)⟩, self)

/-- The store's destructor: wasmtime_store_delete runs on the owned handle
(none: the unique_ptr was empty and nothing is freed). -/
def Store.drop (self : Store) : Option wasmtime_store_t := self.ptr.owned

/-- WasiConfig: owns a wasi_config_t. -/
structure WasiConfig where
  ptr : wasi_config_t
deriving DecidableEq

/-- InterruptHandle: owns a wasmtime_interrupt_handle_t. -/
structure InterruptHandle where
  ptr : wasmtime_interrupt_handle_t
deriving DecidableEq

/-- Store::Context::gc: forwards to wasmtime_context_gc. -/
def Store.Context.gc
    (wasmtime_context_gc : wasmtime_context_t → Unit)
    (self : Store.Context) : Unit :=
  wasmtime_context_gc self.ptr

/-- Store::Context::add_fuel: wasmtime_context_add_fuel(ptr, fuel). -/
def Store.Context.add_fuel
    (wasmtime_context_add_fuel : wasmtime_context_t → Nat → Option wasmtime_error_t)
    (self : Store.Context) (fuel : Nat) : Result Unit Error :=
  match wasmtime_context_add_fuel self.ptr fuel with
  | some error => .err (Error.of_raw error)
  | none => .ok ()

/-- Store::Context::fuel_consumed: uint64_t fuel = 0; the engine call returns
whether fuel metering is enabled and the final out-parameter value. -/
def Store.Context.fuel_consumed
    (wasmtime_context_fuel_consumed : wasmtime_context_t → Bool × Nat)
    (self : Store.Context) : Option Nat :=
  let r := wasmtime_context_fuel_consumed self.ptr
  if r.1 then some r.2 else none

/-- Store::Context::set_wasi: wasmtime_context_set_wasi(ptr, config.ptr.release()). -/
def Store.Context.set_wasi
    (wasmtime_context_set_wasi : wasmtime_context_t → wasi_config_t → Option wasmtime_error_t)
    (self : Store.Context) (config : WasiConfig) : Result Unit Error :=
  match wasmtime_context_set_wasi self.ptr config.ptr with
  | some error => .err (Error.of_raw error)
  | none => .ok ()

/-- Store::Context::interrupt_handle: wasmtime_interrupt_handle_new(ptr),
nullopt on a null handle. -/
def Store.Context.interrupt_handle
    (wasmtime_interrupt_handle_new : wasmtime_context_t → Option wasmtime_interrupt_handle_t)
    (self : Store.Context) : Option InterruptHandle :=
  match wasmtime_interrupt_handle_new self.ptr with
  | some handle => some ⟨handle⟩
  | none => none

/-- GlobalType: owns a wasm_globaltype_t. -/
structure GlobalType where
  ptr : wasm_globaltype_t
deriving DecidableEq

/-- TableType: owns a wasm_tabletype_t. -/
structure TableType where
  ptr : wasm_tabletype_t
deriving DecidableEq

/-- MemoryType: owns a wasm_memorytype_t. -/
structure MemoryType where
  ptr : wasm_memorytype_t
deriving DecidableEq

/-- Global::create: wasmtime_global_new(cx, ty, &init.val, &global). -/
def Global.create
    (wasmtime_global_new : wasmtime_context_t → wasm_globaltype_t → wasmtime_val_t →
      Option wasmtime_error_t × wasmtime_global_t)
    (cx : Store.Context) (ty : GlobalType) (init : Val) : Result Global Error :=
  let r := wasmtime_global_new cx.ptr ty.ptr init.val
  match r.1 with
  | some error => .err (Error.of_raw error)
  | none => .ok ⟨r.2⟩

/-- Global::set: wasmtime_global_set(cx, &global, &val.val). -/
def Global.set
    (wasmtime_global_set : wasmtime_context_t → wasmtime_global_t → wasmtime_val_t →
      Option wasmtime_error_t)
    (self : Global) (cx : Store.Context) (val : Val) : Result Unit Error :=
  match wasmtime_global_set cx.ptr self.global val.val with
  | some error => .err (Error.of_raw error)
  | none => .ok ()

/-- Table::create: wasmtime_table_new(cx, ty, &init.val, &table). -/
def Table.create
    (wasmtime_table_new : wasmtime_context_t → wasm_tabletype_t → wasmtime_val_t →
      Option wasmtime_error_t × wasmtime_table_t)
    (cx : Store.Context) (ty : TableType) (init : Val) : Result Table Error :=
  let r := wasmtime_table_new cx.ptr ty.ptr init.val
  match r.1 with
  | some error => .err (Error.of_raw error)
  | none => .ok ⟨r.2⟩

/-- Table::set: wasmtime_table_set(cx, &table, idx, &val.val). -/
def Table.set
    (wasmtime_table_set : wasmtime_context_t → wasmtime_table_t → Nat → wasmtime_val_t →
      Option wasmtime_error_t)
    (self : Table) (cx : Store.Context) (idx : Nat) (val : Val) : Result Unit Error :=
  match wasmtime_table_set cx.ptr self.table idx val.val with
  | some error => .err (Error.of_raw error)
  | none => .ok ()

/-- Table::grow: uint32_t prev = 0; wasmtime_table_grow(cx, &table, delta,
&init.val, &prev); prev on success. -/
def Table.grow
    (wasmtime_table_grow : wasmtime_context_t → wasmtime_table_t → Nat → wasmtime_val_t →
      Option wasmtime_error_t × Nat)
    (self : Table) (cx : Store.Context) (delta : Nat) (init : Val) : Result Nat Error :=
  let r := wasmtime_table_grow cx.ptr self.table delta init.val
  match r.1 with
  | some error => .err (Error.of_raw error)
  | none => .ok r.2

/-- Memory::create: wasmtime_memory_new(cx, ty, &memory). -/
def Memory.create
    (wasmtime_memory_new : wasmtime_context_t → wasm_memorytype_t →
      Option wasmtime_error_t × wasmtime_memory_t)
    (cx : Store.Context) (ty : MemoryType) : Result Memory Error :=
  let r := wasmtime_memory_new cx.ptr ty.ptr
  match r.1 with
  | some error => .err (Error.of_raw error)
  | none => .ok ⟨r.2⟩

/-- Memory::grow: uint32_t prev = 0; wasmtime_memory_grow(cx, &memory, delta,
&prev); prev on success. -/
def Memory.grow
    (wasmtime_memory_grow : wasmtime_context_t → wasmtime_memory_t → Nat →
      Option wasmtime_error_t × Nat)
    (self : Memory) (cx : Store.Context) (delta : Nat) : Result Nat Error :=
  let r := wasmtime_memory_grow cx.ptr self.memory delta
  match r.1 with
  | some error => .err (Error.of_raw error)
  | none => .ok r.2

/-- Func::call: copies the params' raw values, asks the engine for the arity of
the result list (this->type(cx)->results().size(), passed here as one engine
function), and calls wasmtime_func_call with a zero-initialized result buffer
of that arity; a non-null error is a hard Error, else a non-null trap is a
Trap, else the first nresults buffer entries are wrapped and returned. -/
def Func.call
    (wasmtime_func_type_results_size : wasmtime_context_t → wasmtime_func_t → Nat)
    (wasmtime_func_call : wasmtime_context_t → wasmtime_func_t → List wasmtime_val_t → Nat →
      Option wasmtime_error_t × Option wasm_trap_t × List wasmtime_val_t)
    (self : Func) (cx : Store.Context) (params : List Val) : TrapResult (List Val) :=
  let raw_params := params.map (fun param => param.val)
  let nresults := wasmtime_func_type_results_size cx.ptr self.func
  let r := wasmtime_func_call cx.ptr self.func raw_params nresults
  match r.1 with
  | some error => .err (.error (Error.of_raw error))
  | none =>
    match r.2.1 with
    | some trap => .err (.trap ⟨trap⟩)
    | none => .ok ((List.range nresults).map (fun i => ⟨r.2.2.getD i wasmtime_val_zero⟩))

/-- The import-marshalling loop of Instance::create: for each import it pushes
a value-initialized wasmtime_extern_t, then copies the back entry into the
local `last` (auto last, not auto&), and cvt writes the converted kind and
payload into that copy, which is dropped — the vector entry itself is left
value-initialized. -/
def Instance.raw_imports (imports : List Extern) : List wasmtime_extern_t :=
  imports.foldl
    (fun raw_imports item =>
      let raw_imports := raw_imports ++ [wasmtime_extern_zero]
      let last := raw_imports.getLastD wasmtime_extern_zero
      let _last := Instance.cvt_into item last
      raw_imports)
    []

/-- Instance::create: marshals the imports, then wasmtime_instance_new(cx, m,
raw_imports.data(), raw_imports.size(), &instance, &trap); a non-null error is
a hard Error, else a non-null trap is a Trap, else the Instance. -/
def Instance.create
    (wasmtime_instance_new : wasmtime_context_t → wasmtime_module_t → List wasmtime_extern_t →
      Option wasmtime_error_t × Option wasm_trap_t × wasmtime_instance_t)
    (cx : Store.Context) (m : Module) (imports : List Extern) : TrapResult Instance :=
  let raw_imports := Instance.raw_imports imports
  let r := wasmtime_instance_new cx.ptr m.ptr raw_imports
  match r.1 with
  | some error => .err (.error (Error.of_raw error))
  | none =>
    match r.2.1 with
    | some trap => .err (.trap ⟨trap⟩)
    | none => .ok ⟨r.2.2⟩

/-- Instance::get(cx, name): wasmtime_instance_export_get; on success the raw
extern is converted with cvt. -/
def Instance.get
    (wasmtime_instance_export_get : wasmtime_context_t → wasmtime_instance_t → String →
      Option wasmtime_extern_t)
    (self : Instance) (cx : Store.Context) (name : String) : Option (Option Extern) :=
  match wasmtime_instance_export_get cx.ptr self.inst name with
  | none => some none
  | some e => some (Instance.cvt e)

/-- Linker: owns a wasmtime_linker_t. -/
structure Linker where
  ptr : wasmtime_linker_t
deriving DecidableEq

/-- Linker::define: converts the item with Instance::cvt into a local raw
extern (declared uninitialized; cvt assigns both of its fields) and forwards
it to wasmtime_linker_define. -/
def Linker.define
    (wasmtime_linker_define : wasmtime_linker_t → String → String → wasmtime_extern_t →
      Option wasmtime_error_t)
    (self : Linker) (module : String) (name : String) (item : Extern) : Result Unit Error :=
  let raw := Instance.cvt_into item wasmtime_extern_zero
  match wasmtime_linker_define self.ptr module name raw with
  | some error => .err (Error.of_raw error)
  | none => .ok ()

/-- Linker::define_wasi: wasmtime_linker_define_wasi(ptr). -/
def Linker.define_wasi
    (wasmtime_linker_define_wasi : wasmtime_linker_t → Option wasmtime_error_t)
    (self : Linker) : Result Unit Error :=
  match wasmtime_linker_define_wasi self.ptr with
  | some error => .err (Error.of_raw error)
  | none => .ok ()

/-- Linker::define_instance: wasmtime_linker_define_instance(ptr, cx, name,
&instance.instance). -/
def Linker.define_instance
    (wasmtime_linker_define_instance : wasmtime_linker_t → wasmtime_context_t → String →
      wasmtime_instance_t → Option wasmtime_error_t)
    (self : Linker) (cx : Store.Context) (name : String) (inst : Instance) : Result Unit Error :=
  match wasmtime_linker_define_instance self.ptr cx.ptr name inst.inst with
  | some error => .err (Error.of_raw error)
  | none => .ok ()

/-- Linker::module: wasmtime_linker_module(ptr, cx, name, m.ptr.get()). -/
def Linker.module
    (wasmtime_linker_module : wasmtime_linker_t → wasmtime_context_t → String →
      wasmtime_module_t → Option wasmtime_error_t)
    (self : Linker) (cx : Store.Context) (name : String) (m : Module) : Result Unit Error :=
  match wasmtime_linker_module self.ptr cx.ptr name m.ptr with
  | some error => .err (Error.of_raw error)
  | none => .ok ()

/-- Linker::get_default: wasmtime_linker_get_default(ptr, cx, name, &item). -/
def Linker.get_default
    (wasmtime_linker_get_default : wasmtime_linker_t → wasmtime_context_t → String →
      Option wasmtime_error_t × wasmtime_func_t)
    (self : Linker) (cx : Store.Context) (name : String) : Result Func Error :=
  let r := wasmtime_linker_get_default self.ptr cx.ptr name
  match r.1 with
  | some error => .err (Error.of_raw error)
  | none => .ok ⟨r.2⟩

/-- Linker::instantiate: wasmtime_linker_instantiate(ptr, cx, m, &instance,
&trap); a non-null error is a hard Error, else a non-null trap is a Trap, else
the Instance. -/
def Linker.instantiate
    (wasmtime_linker_instantiate : wasmtime_linker_t → wasmtime_context_t → wasmtime_module_t →
      Option wasmtime_error_t × Option wasm_trap_t × wasmtime_instance_t)
    (self : Linker) (cx : Store.Context) (m : Module) : TrapResult Instance :=
  let r := wasmtime_linker_instantiate self.ptr cx.ptr m.ptr
  match r.1 with
  | some error => .err (.error (Error.of_raw error))
  | none =>
    match r.2.1 with
    | some trap => .err (.trap ⟨trap⟩)
    | none => .ok ⟨r.2.2⟩

/-- One context-accepting call of the header, reified for reasoning about call
sequences: each constructor carries the engine behavior and the arguments the
caller supplies. None of the underlying members receives the Store itself —
each gets the Store::Context by value — which is what ContextCall.run makes
explicit. -/
inductive ContextCall where
  | gc (c : wasmtime_context_t → Unit)
  | add_fuel (c : wasmtime_context_t → Nat → Option wasmtime_error_t) (fuel : Nat)
  | fuel_consumed (c : wasmtime_context_t → Bool × Nat)
  | set_wasi (c : wasmtime_context_t → wasi_config_t → Option wasmtime_error_t)
      (config : WasiConfig)
  | interrupt_handle (c : wasmtime_context_t → Option wasmtime_interrupt_handle_t)
  | global_create (c : wasmtime_context_t → wasm_globaltype_t → wasmtime_val_t →
      Option wasmtime_error_t × wasmtime_global_t) (ty : GlobalType) (init : Val)
  | global_set (c : wasmtime_context_t → wasmtime_global_t → wasmtime_val_t →
      Option wasmtime_error_t) (g : Global) (val : Val)
  | table_create (c : wasmtime_context_t → wasm_tabletype_t → wasmtime_val_t →
      Option wasmtime_error_t × wasmtime_table_t) (ty : TableType) (init : Val)
  | table_set (c : wasmtime_context_t → wasmtime_table_t → Nat → wasmtime_val_t →
      Option wasmtime_error_t) (t : Table) (idx : Nat) (val : Val)
  | table_grow (c : wasmtime_context_t → wasmtime_table_t → Nat → wasmtime_val_t →
      Option wasmtime_error_t × Nat) (t : Table) (delta : Nat) (init : Val)
  | memory_create (c : wasmtime_context_t → wasm_memorytype_t →
      Option wasmtime_error_t × wasmtime_memory_t) (ty : MemoryType)
  | memory_grow (c : wasmtime_context_t → wasmtime_memory_t → Nat →
      Option wasmtime_error_t × Nat) (m : Memory) (delta : Nat)
  | func_call (ct : wasmtime_context_t → wasmtime_func_t → Nat)
      (c : wasmtime_context_t → wasmtime_func_t → List wasmtime_val_t → Nat →
        Option wasmtime_error_t × Option wasm_trap_t × List wasmtime_val_t)
      (f : Func) (params : List Val)
  | instance_create (c : wasmtime_context_t → wasmtime_module_t → List wasmtime_extern_t →
      Option wasmtime_error_t × Option wasm_trap_t × wasmtime_instance_t)
      (m : Module) (imports : List Extern)
  | instance_get (c : wasmtime_context_t → wasmtime_instance_t → String →
      Option wasmtime_extern_t) (i : Instance) (name : String)
  | linker_define_instance (c : wasmtime_linker_t → wasmtime_context_t → String →
      wasmtime_instance_t → Option wasmtime_error_t) (lk : Linker) (name : String) (i : Instance)
  | linker_module (c : wasmtime_linker_t → wasmtime_context_t → String →
      wasmtime_module_t → Option wasmtime_error_t) (lk : Linker) (name : String) (m : Module)
  | linker_instantiate (c : wasmtime_linker_t → wasmtime_context_t → wasmtime_module_t →
      Option wasmtime_error_t × Option wasm_trap_t × wasmtime_instance_t)
      (lk : Linker) (m : Module)
  | linker_get_default (c : wasmtime_linker_t → wasmtime_context_t → String →
      Option wasmtime_error_t × wasmtime_func_t) (lk : Linker) (name : String)

/-- Running one context-accepting call against a store: the member is invoked
with the Context obtained from the store, its result is computed (and, as in
the header, never contains the Store), and the store state after the call is
returned. Every member receives the raw context pointer by value, so the
store's unique_ptr is not reachable from any of them. -/
def ContextCall.run
    (wasmtime_store_context : wasmtime_store_t → wasmtime_context_t)
    (s : Store) : ContextCall → Store
  | .gc c =>
    let _r := Store.Context.gc c (Store.context wasmtime_store_context s).1
    (Store.context wasmtime_store_context s).2
  | .add_fuel c fuel =>
    let _r := Store.Context.add_fuel c (Store.context wasmtime_store_context s).1 fuel
    (Store.context wasmtime_store_context s).2
  | .fuel_consumed c =>
    let _r := Store.Context.fuel_consumed c (Store.context wasmtime_store_context s).1
    (Store.context wasmtime_store_context s).2
  | .set_wasi c config =>
    let _r := Store.Context.set_wasi c (Store.context wasmtime_store_context s).1 config
    (Store.context wasmtime_store_context s).2
  | .interrupt_handle c =>
    let _r := Store.Context.interrupt_handle c (Store.context wasmtime_store_context s).1
    (Store.context wasmtime_store_context s).2
  | .global_create c ty init =>
    let _r := Global.create c (Store.context wasmtime_store_context s).1 ty init
    (Store.context wasmtime_store_context s).2
  | .global_set c g val =>
    let _r := Global.set c g (Store.context wasmtime_store_context s).1 val
    (Store.context wasmtime_store_context s).2
  | .table_create c ty init =>
    let _r := Table.create c (Store.context wasmtime_store_context s).1 ty init
    (Store.context wasmtime_store_context s).2
  | .table_set c t idx val =>
    let _r := Table.set c t (Store.context wasmtime_store_context s).1 idx val
    (Store.context wasmtime_store_context s).2
  | .table_grow c t delta init =>
    let _r := Table.grow c t (Store.context wasmtime_store_context s).1 delta init
    (Store.context wasmtime_store_context s).2
  | .memory_create c ty =>
    let _r := Memory.create c (Store.context wasmtime_store_context s).1 ty
    (Store.context wasmtime_store_context s).2
  | .memory_grow c m delta =>
    let _r := Memory.grow c m (Store.context wasmtime_store_context s).1 delta
    (Store.context wasmtime_store_context s).2
  | .func_call ct c f params =>
    let _r := Func.call ct c f (Store.context wasmtime_store_context s).1 params
    (Store.context wasmtime_store_context s).2
  | .instance_create c m imports =>
    let _r := Instance.create c (Store.context wasmtime_store_context s).1 m imports
    (Store.context wasmtime_store_context s).2
  | .instance_get c i name =>
    let _r := Instance.get c i (Store.context wasmtime_store_context s).1 name
    (Store.context wasmtime_store_context s).2
  | .linker_define_instance c lk name i =>
    let _r := Linker.define_instance c lk (Store.context wasmtime_store_context s).1 name i
    (Store.context wasmtime_store_context s).2
  | .linker_module c lk name m =>
    let _r := Linker.module c lk (Store.context wasmtime_store_context s).1 name m
    (Store.context wasmtime_store_context s).2
  | .linker_instantiate c lk m =>
    let _r := Linker.instantiate c lk (Store.context wasmtime_store_context s).1 m
    (Store.context wasmtime_store_context s).2
  | .linker_get_default c lk name =>
    let _r := Linker.get_default c lk (Store.context wasmtime_store_context s).1 name
    (Store.context wasmtime_store_context s).2

/-- A sequence of context-accepting calls against a store. -/
def run_context_trace
    (wasmtime_store_context : wasmtime_store_t → wasmtime_context_t)
    (s : Store) (calls : List ContextCall) : Store :=
  calls.foldl (fun st call => ContextCall.run wasmtime_store_context st call) s

/-- The contract each Result-returning wrapper follows (the header's
`if (error != nullptr) return Error(error); return v;` pattern): the error
variant, carrying the engine's error, exactly on a non-null engine error; the
ok variant with the given value otherwise; and operator bool reports the ok
variant. -/
def result_spec {T : Type} (o : Option wasmtime_error_t) (v : T) (r : Result T Error) : Prop :=
  (r.toBool = o.isNone) ∧
  (∀ e, o = some e → r = Result.err (Error.of_raw e)) ∧
  (o = none → r = Result.ok v)

/-- The contract each TrapResult-returning wrapper follows: a TrapError holding
the engine's Error on a non-null error pointer; a TrapError holding the Trap on
a null error and non-null trap; the ok value otherwise — exactly one of the
three, and operator bool reports the ok variant. -/
def trap_spec {V T : Type} (o : Option wasmtime_error_t × Option wasm_trap_t × V)
    (mk : V → T) (r : TrapResult T) : Prop :=
  (r.toBool = (o.1.isNone && o.2.1.isNone)) ∧
  (∀ e, o.1 = some e → r = Result.err (TrapError.error (Error.of_raw e))) ∧
  (∀ t, o.1 = none → o.2.1 = some t → r = Result.err (TrapError.trap ⟨t⟩)) ∧
  (o.1 = none → o.2.1 = none → r = Result.ok (mk o.2.2))

/-- The Extern variant alternative that Instance::cvt selects for each C
kind: FUNC to the Func alternative (index 2 of the variant), GLOBAL to Global
(3), TABLE to Table (5), MEMORY to Memory (4), INSTANCE to Instance (0),
MODULE to Module (1). -/
def alt_of_kind : wasmtime_extern_kind_t → Nat
  | .WASMTIME_EXTERN_FUNC => 2
  | .WASMTIME_EXTERN_GLOBAL => 3
  | .WASMTIME_EXTERN_TABLE => 5
  | .WASMTIME_EXTERN_MEMORY => 4
  | .WASMTIME_EXTERN_INSTANCE => 0
  | .WASMTIME_EXTERN_MODULE => 1

/-- The error-to-result pattern satisfies result_spec. -/
theorem result_spec_match {T : Type} (o : Option wasmtime_error_t) (v : T) :
    result_spec o v
      (match o with
        | some error => Result.err (Error.of_raw error)
        | none => Result.ok v) := by
  cases o <;> simp [result_spec, Result.toBool]

/-- The error-then-trap-to-result pattern satisfies trap_spec. -/
theorem trap_spec_match {V T : Type} (o : Option wasmtime_error_t × Option wasm_trap_t × V)
    (mk : V → T) :
    trap_spec o mk
      (match o.1 with
        | some error => Result.err (TrapError.error (Error.of_raw error))
        | none =>
          match o.2.1 with
          | some trap => Result.err (TrapError.trap ⟨trap⟩)
          | none => Result.ok (mk o.2.2)) := by
  obtain ⟨eo, tro, v⟩ := o
  cases eo <;> cases tro <;> simp [trap_spec, Result.toBool]

/-- Running any single context-accepting call leaves the store unchanged. -/
theorem ContextCall.run_fixes_store
    (wsc : wasmtime_store_t → wasmtime_context_t) (s : Store) (call : ContextCall) :
    ContextCall.run wsc s call = s := by
  cases call <;> rfl

/-- C5: the error path propagates the engine's message unchanged: an Error
built from an engine error reports exactly the bytes the engine supplies, and
TrapError::message returns the contained Trap's message when it holds a Trap
and the contained Error's message when it holds an Error. -/
theorem C5_error_message_propagation :
    ∀ (e : wasmtime_error_t) (t : Trap) (er : Error),
      Error.message (Error.of_raw e) = wasmtime_error_message e ∧
      TrapError.message (TrapError.trap t) = Trap.message t ∧
      TrapError.message (TrapError.error er) = Error.message er := by
  intro e t er
  exact ⟨rfl, rfl, rfl⟩

/-- C6: Trap::i32_exit returns a status exactly when the engine reports an
exit status for the trap, and then the status the engine wrote; Trap::trace is
exactly the engine-produced frame sequence, same length, same order. -/
theorem C6_trap_exit_status_and_trace :
    ∀ (t : Trap),
      ((Trap.i32_exit t).isSome = (wasmtime_trap_exit_status t.ptr).1) ∧
      (∀ s : Int, wasmtime_trap_exit_status t.ptr = (true, s) → Trap.i32_exit t = some s) ∧
      ((wasmtime_trap_exit_status t.ptr).1 = false → Trap.i32_exit t = none) ∧
      (Trace.size (Trap.trace t) = (wasm_trap_trace t.ptr).length) ∧
      (∀ i : Nat, Trace.get (Trap.trace t) i = (wasm_trap_trace t.ptr).get? i) := by
  intro t
  refine ⟨?_, ?_, ?_, rfl, fun i => rfl⟩
  · cases h : (wasmtime_trap_exit_status t.ptr).1 <;> simp [Trap.i32_exit, h]
  · intro s hs
    simp [Trap.i32_exit, hs]
  · intro h
    simp [Trap.i32_exit, h]

/-- C6 witness: on a trap the engine reports as exit 3 with one frame,
i32_exit is 3 and the trace is that frame. -/
theorem C6_trap_exit_status_witness :
    Trap.i32_exit ⟨⟨[], some 3, [⟨1, 2, 3⟩]⟩⟩ = some 3 ∧
    Trace.get (Trap.trace ⟨⟨[], some 3, [⟨1, 2, 3⟩]⟩⟩) 0 = some ⟨1, 2, 3⟩ :=
  ⟨(C6_trap_exit_status_and_trace ⟨⟨[], some 3, [⟨1, 2, 3⟩]⟩⟩).2.1 3 rfl,
   (C6_trap_exit_status_and_trace ⟨⟨[], some 3, [⟨1, 2, 3⟩]⟩⟩).2.2.2.2 0⟩

/-- C7: the fuel interface only forwards to the engine's counters: add_fuel
hands the given amount to the engine and errs exactly on an engine error;
fuel_consumed returns the engine-reported counter when metering is enabled and
nullopt otherwise; and each outcome is a function of nothing but the engine's
reply to that one call (neither computes nor alters a fuel value itself). -/
theorem C7_fuel_only_forwards :
    ∀ (cadd cadd' : wasmtime_context_t → Nat → Option wasmtime_error_t)
      (cget cget' : wasmtime_context_t → Bool × Nat)
      (cx : Store.Context) (fuel : Nat),
      ((Store.Context.add_fuel cadd cx fuel).toBool = (cadd cx.ptr fuel).isNone) ∧
      (∀ e, cadd cx.ptr fuel = some e →
        Store.Context.add_fuel cadd cx fuel = Result.err (Error.of_raw e)) ∧
      (cadd cx.ptr fuel = none → Store.Context.add_fuel cadd cx fuel = Result.ok ()) ∧
      (cadd cx.ptr fuel = cadd' cx.ptr fuel →
        Store.Context.add_fuel cadd cx fuel = Store.Context.add_fuel cadd' cx fuel) ∧
      (∀ n, cget cx.ptr = (true, n) → Store.Context.fuel_consumed cget cx = some n) ∧
      ((cget cx.ptr).1 = false → Store.Context.fuel_consumed cget cx = none) ∧
      (cget cx.ptr = cget' cx.ptr →
        Store.Context.fuel_consumed cget cx = Store.Context.fuel_consumed cget' cx) := by
  intro cadd cadd' cget cget' cx fuel
  refine ⟨?_, ?_, ?_, ?_, ?_, ?_, ?_⟩
  · cases h : cadd cx.ptr fuel <;> simp [Store.Context.add_fuel, h, Result.toBool]
  · intro e he
    simp [Store.Context.add_fuel, he]
  · intro he
    simp [Store.Context.add_fuel, he]
  · intro he
    simp [Store.Context.add_fuel, he]
  · intro n hn
    simp [Store.Context.fuel_consumed, hn]
  · intro h1
    simp [Store.Context.fuel_consumed, h1]
  · intro he
    simp [Store.Context.fuel_consumed, he]

/-- C7 witness: with an engine accepting fuel 5 and reporting 11 consumed, the
wrapper returns ok and 11. -/
theorem C7_fuel_only_forwards_witness :
    Store.Context.add_fuel (fun _ _ => none) ⟨4⟩ 5 = Result.ok () ∧
    Store.Context.fuel_consumed (fun _ => (true, 11)) ⟨4⟩ = some 11 :=
  ⟨(C7_fuel_only_forwards (fun _ _ => none) (fun _ _ => none) (fun _ => (true, 11))
      (fun _ => (true, 11)) ⟨4⟩ 5).2.2.1 rfl,
   (C7_fuel_only_forwards (fun _ _ => none) (fun _ _ => none) (fun _ => (true, 11))
      (fun _ => (true, 11)) ⟨4⟩ 5).2.2.2.2.1 11 rfl⟩

/-- C8: a Store::Context is a non-owning view: obtaining it leaves the store
as it was, any sequence of context-accepting calls leaves the store (hence the
handle its unique_ptr owns) unchanged, and destruction after such a sequence
frees exactly the handle the store owned at the start. -/
theorem C8_store_ownership_frame :
    ∀ (wsc : wasmtime_store_t → wasmtime_context_t) (s : Store) (calls : List ContextCall),
      ((Store.context wsc s).2 = s) ∧
      (run_context_trace wsc s calls = s) ∧
      ((run_context_trace wsc s calls).ptr.owned = s.ptr.owned) ∧
      (Store.drop (run_context_trace wsc s calls) = s.ptr.owned) := by
  intro wsc s calls
  have htrace : ∀ (st : Store), run_context_trace wsc st calls = st := by
    induction calls with
    | nil => intro st; rfl
    | cons c cs ih =>
      intro st
      have h1 : run_context_trace wsc st (c :: cs) =
          run_context_trace wsc (ContextCall.run wsc st c) cs := rfl
      rw [h1, ContextCall.run_fixes_store, ih]
  refine ⟨rfl, htrace s, ?_, ?_⟩
  · rw [htrace s]
  · rw [htrace s]
    rfl

/-- C10: Limits(min) has min() = min and max() = nullopt; Limits(min, max) has
max() = max for every max other than the sentinel wasm_limits_max_default, and
max() = nullopt when the caller passes the sentinel itself. -/
theorem C10_limits_minmax :
    ∀ (mn mx : Nat),
      Limits.min (Limits.of_min mn) = mn ∧
      Limits.max (Limits.of_min mn) = none ∧
      Limits.min (Limits.of_min_max mn mx) = mn ∧
      (mx ≠ wasm_limits_max_default → Limits.max (Limits.of_min_max mn mx) = some mx) ∧
      Limits.max (Limits.of_min_max mn wasm_limits_max_default) = none := by
  intro mn mx
  refine ⟨rfl, ?_, rfl, ?_, ?_⟩
  · simp [Limits.max, Limits.of_min]
  · intro h
    simp [Limits.max, Limits.of_min_max, h]
  · simp [Limits.max, Limits.of_min_max]

/-- C10 witness: Limits(1) and Limits(2, 3), as in the repository's own
Limits smoke test. -/
theorem C10_limits_minmax_witness :
    Limits.min (Limits.of_min 1) = 1 ∧
    Limits.max (Limits.of_min 1) = none ∧
    Limits.max (Limits.of_min_max 2 3) = some 3 :=
  ⟨(C10_limits_minmax 1 3).1, (C10_limits_minmax 1 3).2.1,
   (C10_limits_minmax 2 3).2.2.2.1 (by decide)⟩

/-- C1 (evaluating the copy bug at a failing input): marshalling one
Global import for Instance::create yields one raw entry, but that entry is the
value-initialized extern — `auto last = raw_imports.back()` copies, so cvt
writes into the discarded copy — while the conversion of the import is a
WASMTIME_EXTERN_GLOBAL entry carrying the global's handle, which differs. -/
theorem C1_imports_marshalling_bug :
    Instance.raw_imports [Extern.global ⟨⟨7, 3⟩⟩] = [wasmtime_extern_zero] ∧
    (∀ raw0, Instance.cvt_into (Extern.global ⟨⟨7, 3⟩⟩) raw0 =
      ⟨.WASMTIME_EXTERN_GLOBAL, .global ⟨7, 3⟩⟩) ∧
    (⟨.WASMTIME_EXTERN_GLOBAL, .global ⟨7, 3⟩⟩ : wasmtime_extern_t) ≠ wasmtime_extern_zero := by
  refine ⟨rfl, fun raw0 => rfl, by decide⟩

/-- C2: every listed Result-returning wrapper returns the error variant iff
the underlying C call produces a non-null error pointer and otherwise the ok
variant holding the value that call produced, and Result's boolean conversion
is true exactly on the ok variant. -/
theorem C2_result_error_iff :
    (∀ (T E : Type) (r : Result T E), r.toBool = true ↔ ∃ t, r = Result.ok t) ∧
    (∀ (c : String → Option wasmtime_error_t × Bytes) (wat : String),
      result_spec (c wat).1 (c wat).2 (wat2wasm c wat)) ∧
    (∀ (c : wasm_config_t → Strategy → Option wasmtime_error_t) (self : Config) (s : Strategy),
      result_spec (c self.ptr s) () (Config.strategy c self s)) ∧
    (∀ (c : wasm_config_t → ProfilingStrategy → Option wasmtime_error_t) (self : Config)
      (p : ProfilingStrategy), result_spec (c self.ptr p) () (Config.profiler c self p)) ∧
    (∀ (c : wasm_config_t → String → Option wasmtime_error_t) (self : Config) (path : String),
      result_spec (c self.ptr path) () (Config.cache_load c self path)) ∧
    (∀ (c : wasm_engine_t → Bytes → Option wasmtime_error_t × wasmtime_module_t)
      (engine : Engine) (wasm : Bytes),
      result_spec (c engine.ptr wasm).1 (Module.mk (c engine.ptr wasm).2)
        (Module.compile c engine wasm)) ∧
    (∀ (c : wasm_engine_t → Bytes → Option wasmtime_error_t) (engine : Engine) (wasm : Bytes),
      result_spec (c engine.ptr wasm) () (Module.validate c engine wasm)) ∧
    (∀ (c : wasm_engine_t → Bytes → Option wasmtime_error_t × wasmtime_module_t)
      (engine : Engine) (wasm : Bytes),
      result_spec (c engine.ptr wasm).1 (Module.mk (c engine.ptr wasm).2)
        (Module.deserialize c engine wasm)) ∧
    (∀ (c : wasmtime_module_t → Option wasmtime_error_t × Bytes) (self : Module),
      result_spec (c self.ptr).1 (c self.ptr).2 (Module.serialize c self)) ∧
    (∀ (c : wasmtime_context_t → Nat → Option wasmtime_error_t) (cx : Store.Context) (fuel : Nat),
      result_spec (c cx.ptr fuel) () (Store.Context.add_fuel c cx fuel)) ∧
    (∀ (c : wasmtime_context_t → wasi_config_t → Option wasmtime_error_t) (cx : Store.Context)
      (config : WasiConfig),
      result_spec (c cx.ptr config.ptr) () (Store.Context.set_wasi c cx config)) ∧
    (∀ (c : wasmtime_context_t → wasm_globaltype_t → wasmtime_val_t →
        Option wasmtime_error_t × wasmtime_global_t)
      (cx : Store.Context) (ty : GlobalType) (init : Val),
      result_spec (c cx.ptr ty.ptr init.val).1 (Global.mk (c cx.ptr ty.ptr init.val).2)
        (Global.create c cx ty init)) ∧
    (∀ (c : wasmtime_context_t → wasmtime_global_t → wasmtime_val_t → Option wasmtime_error_t)
      (self : Global) (cx : Store.Context) (val : Val),
      result_spec (c cx.ptr self.global val.val) () (Global.set c self cx val)) ∧
    (∀ (c : wasmtime_context_t → wasm_tabletype_t → wasmtime_val_t →
        Option wasmtime_error_t × wasmtime_table_t)
      (cx : Store.Context) (ty : TableType) (init : Val),
      result_spec (c cx.ptr ty.ptr init.val).1 (Table.mk (c cx.ptr ty.ptr init.val).2)
        (Table.create c cx ty init)) ∧
    (∀ (c : wasmtime_context_t → wasmtime_table_t → Nat → wasmtime_val_t →
        Option wasmtime_error_t)
      (self : Table) (cx : Store.Context) (idx : Nat) (val : Val),
      result_spec (c cx.ptr self.table idx val.val) () (Table.set c self cx idx val)) ∧
    (∀ (c : wasmtime_context_t → wasmtime_table_t → Nat → wasmtime_val_t →
        Option wasmtime_error_t × Nat)
      (self : Table) (cx : Store.Context) (delta : Nat) (init : Val),
      result_spec (c cx.ptr self.table delta init.val).1 (c cx.ptr self.table delta init.val).2
        (Table.grow c self cx delta init)) ∧
    (∀ (c : wasmtime_context_t → wasm_memorytype_t → Option wasmtime_error_t × wasmtime_memory_t)
      (cx : Store.Context) (ty : MemoryType),
      result_spec (c cx.ptr ty.ptr).1 (Memory.mk (c cx.ptr ty.ptr).2) (Memory.create c cx ty)) ∧
    (∀ (c : wasmtime_context_t → wasmtime_memory_t → Nat → Option wasmtime_error_t × Nat)
      (self : Memory) (cx : Store.Context) (delta : Nat),
      result_spec (c cx.ptr self.memory delta).1 (c cx.ptr self.memory delta).2
        (Memory.grow c self cx delta)) ∧
    (∀ (c : wasmtime_linker_t → String → String → wasmtime_extern_t → Option wasmtime_error_t)
      (self : Linker) (module : String) (name : String) (item : Extern),
      result_spec (c self.ptr module name (Instance.cvt_into item wasmtime_extern_zero)) ()
        (Linker.define c self module name item)) ∧
    (∀ (c : wasmtime_linker_t → Option wasmtime_error_t) (self : Linker),
      result_spec (c self.ptr) () (Linker.define_wasi c self)) ∧
    (∀ (c : wasmtime_linker_t → wasmtime_context_t → String → wasmtime_instance_t →
        Option wasmtime_error_t)
      (self : Linker) (cx : Store.Context) (name : String) (i : Instance),
      result_spec (c self.ptr cx.ptr name i.inst) () (Linker.define_instance c self cx name i)) ∧
    (∀ (c : wasmtime_linker_t → wasmtime_context_t → String → wasmtime_module_t →
        Option wasmtime_error_t)
      (self : Linker) (cx : Store.Context) (name : String) (m : Module),
      result_spec (c self.ptr cx.ptr name m.ptr) () (Linker.module c self cx name m)) ∧
    (∀ (c : wasmtime_linker_t → wasmtime_context_t → String →
        Option wasmtime_error_t × wasmtime_func_t)
      (self : Linker) (cx : Store.Context) (name : String),
      result_spec (c self.ptr cx.ptr name).1 (Func.mk (c self.ptr cx.ptr name).2)
        (Linker.get_default c self cx name)) := by
  refine ⟨?_, fun c wat => result_spec_match _ _, fun c self s => result_spec_match _ _,
    fun c self p => result_spec_match _ _, fun c self path => result_spec_match _ _,
    fun c engine wasm => result_spec_match _ _, fun c engine wasm => result_spec_match _ _,
    fun c engine wasm => result_spec_match _ _, fun c self => result_spec_match _ _,
    fun c cx fuel => result_spec_match _ _, fun c cx config => result_spec_match _ _,
    fun c cx ty init => result_spec_match _ _, fun c self cx val => result_spec_match _ _,
    fun c cx ty init => result_spec_match _ _, fun c self cx idx val => result_spec_match _ _,
    fun c self cx delta init => result_spec_match _ _, fun c cx ty => result_spec_match _ _,
    fun c self cx delta => result_spec_match _ _,
    fun c self module name item => result_spec_match _ _, fun c self => result_spec_match _ _,
    fun c self cx name i => result_spec_match _ _, fun c self cx name m => result_spec_match _ _,
    fun c self cx name => result_spec_match _ _⟩
  intro T E r
  cases r <;> simp [Result.toBool]

/-- C2 witness: wat2wasm with an engine that succeeds with one byte returns
that byte vector, and with an engine that errors returns that error. -/
theorem C2_result_error_iff_witness :
    wat2wasm (fun _ => (none, [0])) "(module)" = Result.ok ([0] : Bytes) ∧
    wat2wasm (fun _ => (some ⟨[1]⟩, [])) "bad" = Result.err (Error.of_raw ⟨[1]⟩) :=
  ⟨(C2_result_error_iff.2.1 (fun _ => (none, [0])) "(module)").2.2 rfl,
   (C2_result_error_iff.2.1 (fun _ => (some ⟨[1]⟩, [])) "bad").2.1 ⟨[1]⟩ rfl⟩

/-- C3: Instance::create, Linker::instantiate and Func::call each return
exactly one of the three TrapResult outcomes: a TrapError holding the Error on
a non-null engine error, a TrapError holding the Trap on a null error and a
non-null trap, and the ok value (the Instance, or the result values) when
neither is produced. -/
theorem C3_trap_result_trichotomy :
    (∀ (c : wasmtime_context_t → wasmtime_module_t → List wasmtime_extern_t →
        Option wasmtime_error_t × Option wasm_trap_t × wasmtime_instance_t)
      (cx : Store.Context) (m : Module) (imports : List Extern),
      trap_spec (c cx.ptr m.ptr (Instance.raw_imports imports)) Instance.mk
        (Instance.create c cx m imports)) ∧
    (∀ (c : wasmtime_linker_t → wasmtime_context_t → wasmtime_module_t →
        Option wasmtime_error_t × Option wasm_trap_t × wasmtime_instance_t)
      (self : Linker) (cx : Store.Context) (m : Module),
      trap_spec (c self.ptr cx.ptr m.ptr) Instance.mk (Linker.instantiate c self cx m)) ∧
    (∀ (ct : wasmtime_context_t → wasmtime_func_t → Nat)
      (c : wasmtime_context_t → wasmtime_func_t → List wasmtime_val_t → Nat →
        Option wasmtime_error_t × Option wasm_trap_t × List wasmtime_val_t)
      (self : Func) (cx : Store.Context) (params : List Val),
      trap_spec (c cx.ptr self.func (params.map (fun p => p.val)) (ct cx.ptr self.func))
        (fun out => (List.range (ct cx.ptr self.func)).map
          (fun i => Val.mk (out.getD i wasmtime_val_zero)))
        (Func.call ct c self cx params)) :=
  ⟨fun _c _cx _m _imports => trap_spec_match _ _,
   fun _c _self _cx _m => trap_spec_match _ _,
   fun _ct _c _self _cx _params => trap_spec_match _ _⟩

/-- C3 witness: an engine that traps instantiation produces the TrapError
holding that trap. -/
theorem C3_trap_result_trichotomy_witness :
    Linker.instantiate (fun _ _ _ => (none, some ⟨[2], none, []⟩, ⟨0, 0⟩)) ⟨1⟩ ⟨2⟩ ⟨3⟩ =
      Result.err (TrapError.trap ⟨⟨[2], none, []⟩⟩) :=
  (C3_trap_result_trichotomy.2.1 (fun _ _ _ => (none, some ⟨[2], none, []⟩, ⟨0, 0⟩))
    ⟨1⟩ ⟨2⟩ ⟨3⟩).2.2.1 ⟨[2], none, []⟩ rfl rfl

/-- A well-tagged raw extern converts to some Extern, converts back to itself
whatever the initial value of the out-struct, and lands in the alternative
determined by its kind. -/
theorem cvt_roundtrip_of_matches (a : wasmtime_extern_t)
    (h : kind_matches a.kind a.of = true) :
    ∃ x : Extern, Instance.cvt a = some x ∧
      (∀ raw0, Instance.cvt_into x raw0 = a) ∧
      Extern.alternative x = alt_of_kind a.kind := by
  obtain ⟨k, u⟩ := a
  cases k <;> cases u <;>
    simp_all [kind_matches, Instance.cvt, Instance.cvt_into, Extern.alternative, alt_of_kind]

/-- cvt_roundtrip_of_matches witness: the GLOBAL-tagged raw extern with handle
(7, 3) round-trips. -/
theorem cvt_roundtrip_of_matches_witness :
    ∃ x : Extern, Instance.cvt ⟨.WASMTIME_EXTERN_GLOBAL, .global ⟨7, 3⟩⟩ = some x ∧
      (∀ raw0, Instance.cvt_into x raw0 = ⟨.WASMTIME_EXTERN_GLOBAL, .global ⟨7, 3⟩⟩) ∧
      Extern.alternative x = alt_of_kind .WASMTIME_EXTERN_GLOBAL :=
  cvt_roundtrip_of_matches ⟨.WASMTIME_EXTERN_GLOBAL, .global ⟨7, 3⟩⟩ (by decide)

/-- alt_of_kind is injective over the six kinds. -/
theorem alt_of_kind_inj (k k' : wasmtime_extern_kind_t)
    (h : alt_of_kind k = alt_of_kind k') : k = k' := by
  cases k <;> cases k' <;> simp_all [alt_of_kind]

/-- alt_of_kind_inj witness: applied at FUNC and FUNC. -/
theorem alt_of_kind_inj_witness :
    wasmtime_extern_kind_t.WASMTIME_EXTERN_FUNC = .WASMTIME_EXTERN_FUNC :=
  alt_of_kind_inj .WASMTIME_EXTERN_FUNC .WASMTIME_EXTERN_FUNC rfl

/-- C4: the conversion between the C tagged union and the wrapper's Extern is
a one-to-one round trip: every raw extern whose tag names its active member
converts through Instance::cvt to an Extern that converts back (by the
writing cvt, regardless of the out-struct's prior value) to the original kind
and payload, and two such raw externs of distinct kinds convert to distinct
variant alternatives. -/
theorem C4_extern_cvt_roundtrip :
    ∀ (a b : wasmtime_extern_t),
      (kind_matches a.kind a.of = true →
        ∃ x : Extern, Instance.cvt a = some x ∧ ∀ raw0, Instance.cvt_into x raw0 = a) ∧
      (∀ x y : Extern, kind_matches a.kind a.of = true → kind_matches b.kind b.of = true →
        a.kind ≠ b.kind → Instance.cvt a = some x → Instance.cvt b = some y →
        Extern.alternative x ≠ Extern.alternative y) := by
  intro a b
  constructor
  · intro h
    obtain ⟨x, hx, hback, _⟩ := cvt_roundtrip_of_matches a h
    exact ⟨x, hx, hback⟩
  · intro x y ha hb hk hx hy
    obtain ⟨x', hx', _, haltx⟩ := cvt_roundtrip_of_matches a ha
    obtain ⟨y', hy', _, halty⟩ := cvt_roundtrip_of_matches b hb
    have hxx : x' = x := by
      rw [hx'] at hx
      exact Option.some.inj hx
    have hyy : y' = y := by
      rw [hy'] at hy
      exact Option.some.inj hy
    subst hxx
    subst hyy
    rw [haltx, halty]
    intro heq
    exact hk (alt_of_kind_inj _ _ heq)

/-- C4 witness: the FUNC-tagged raw extern with handle (1, 2) and the
GLOBAL-tagged one with handle (7, 3): the first round-trips, and the two land
in distinct variant alternatives. -/
theorem C4_extern_cvt_roundtrip_witness :
    (∃ x : Extern, Instance.cvt ⟨.WASMTIME_EXTERN_FUNC, .func ⟨1, 2⟩⟩ = some x ∧
      ∀ raw0, Instance.cvt_into x raw0 = ⟨.WASMTIME_EXTERN_FUNC, .func ⟨1, 2⟩⟩) ∧
    (Extern.alternative (.func ⟨⟨1, 2⟩⟩) ≠ Extern.alternative (.global ⟨⟨7, 3⟩⟩)) :=
  ⟨(C4_extern_cvt_roundtrip ⟨.WASMTIME_EXTERN_FUNC, .func ⟨1, 2⟩⟩
      ⟨.WASMTIME_EXTERN_GLOBAL, .global ⟨7, 3⟩⟩).1 (by decide),
   (C4_extern_cvt_roundtrip ⟨.WASMTIME_EXTERN_FUNC, .func ⟨1, 2⟩⟩
      ⟨.WASMTIME_EXTERN_GLOBAL, .global ⟨7, 3⟩⟩).2 (.func ⟨⟨1, 2⟩⟩) (.global ⟨⟨7, 3⟩⟩)
      (by decide) (by decide) (by decide) (by decide) (by decide)⟩

/-- C9 (evaluating the missing V128 case): each of the six non-V128 kinds
reads back as itself through the Ref of ValType(k), but ValType(KindV128) reads
back into the switch's std::abort fallthrough (modelled none), not KindV128. -/
theorem C9_v128_kind_aborts :
    (ValType.Ref.kind (ValType.ref (ValType.of_kind .KindV128)) = none) ∧
    (∀ k : ValKind, k ≠ .KindV128 →
      ValType.Ref.kind (ValType.ref (ValType.of_kind k)) = some k) := by
  refine ⟨by decide, ?_⟩
  intro k hk
  cases k <;> first
    | exact absurd rfl hk
    | decide

end Wasmtime
